import Mathlib

/-!
Verification development for the purchase workflow of the
`appstorepro-back` repository (shallow embedding of
`src/application/services/PurchaseService.ts` and collaborators).

Modelling conventions:
* JavaScript numbers are modelled as exact rationals (`ℚ`); floating-point
  rounding artifacts are out of scope.  Integer-valued fields (ids,
  quantities, timestamps) use `ℤ`/`ℕ`.
* Timestamps (`Date.now()`, `new Date()`) are epoch-millisecond naturals
  supplied as explicit parameters.
* `Math.random()` is modelled by the list of base-36 fraction digits that
  `Number.prototype.toString(36)` prints for it (empty list when the value
  is `0`, no trailing zero digits otherwise).
* `JSON.parse` applied to the catalog `colors` field is modelled for the
  domain the catalog uses: either a JSON array of escape-free string
  literals (parse succeeds with that list) or malformed input (parse
  throws).  Other top-level JSON forms are outside the modelled domain and
  mapped to parse failure.
* Database tables are association lists in insertion order; Prisma
  `findFirst`/`findUnique` become `List.find?`, `findMany` with a filter
  becomes `List.filter`, `orderBy ... desc` becomes `List.mergeSort`.
* The Prisma/gateway/email collaborators never fail in the model; the
  claims under study are about validation ordering and the writes
  performed, not about infrastructure failures.
* String lengths are code-point counts (the buyer strings involved are
  ASCII in all claims), `trim`/`toUpperCase` are the Lean ASCII versions.
-/

namespace AppStore

/-! ## JavaScript primitives -/

/-- `Math.round x` for an exact rational: round half toward `+∞`. -/
def jsRound (q : ℚ) : ℤ := ⌊q + 1/2⌋

/-- `String.prototype.substr(start, len)` for non-negative arguments. -/
def jsSubstr (s : String) (start len : Nat) : String :=
  String.mk ((s.data.drop start).take len)

/-- JavaScript string truthiness for an optional string field: `undefined`
and the empty string are falsy. -/
def optTruthy : Option String → Option String
  | none => none
  | some s => if s = "" then none else some s

/-- `String.prototype.trim()` on the ASCII buyer strings this code
validates: strip leading and trailing whitespace. -/
def jsTrim (s : String) : String :=
  String.mk (((s.data.dropWhile Char.isWhitespace).reverse.dropWhile Char.isWhitespace).reverse)

/-- `String.prototype.toUpperCase()` on the ASCII statuses this code
compares (per-character upper-casing). -/
def jsToUpperCase (s : String) : String := String.mk (s.data.map Char.toUpper)

/-- The character a base-36 digit prints as (`0`-`9`, `a`-`z`). -/
def base36Char (d : Fin 36) : Char :=
  if d.val < 10 then Char.ofNat ('0'.toNat + d.val)
  else Char.ofNat ('a'.toNat + (d.val - 10))

/-- `Math.random().toString(36)`: `"0"` for zero, otherwise `"0."`
followed by the base-36 fraction digits. -/
def jsRandomToString36 (ds : List (Fin 36)) : String :=
  if ds.isEmpty then "0" else "0." ++ String.mk (ds.map base36Char)

/-- A base-36 alphanumeric character: a decimal digit or `a`-`z`. -/
def isBase36Char (c : Char) : Bool :=
  (('0' ≤ c) && (c ≤ '9')) || (('a' ≤ c) && (c ≤ 'z'))

/-- The external-reference token of `createPurchase`
(`REF-${Date.now()}-${Math.random().toString(36).substr(2, 9)}`). -/
def mkExternalReference (now : Nat) (ds : List (Fin 36)) : String :=
  "REF-" ++ toString now ++ "-" ++ jsSubstr (jsRandomToString36 ds) 2 9

/-- A character allowed in every segment of the buyer-email regex
`^[^\s@]+@[^\s@]+\.[^\s@]+$`: anything but whitespace and `@`. -/
def okEmailChar (c : Char) : Bool := !c.isWhitespace && c != '@'

/-- `emailRegex.test s` for `^[^\s@]+@[^\s@]+\.[^\s@]+$`: some split
`A ++ "@" ++ B ++ "." ++ C` exists with `A`, `B`, `C` nonempty and free of
whitespace and `@`. -/
def emailRegexTest (s : String) : Bool :=
  let cs := s.data
  let n := cs.length
  (List.range n).any fun ai =>
    (List.range n).any fun di =>
      (cs.get? ai == some '@') && (cs.get? di == some '.') &&
      (1 ≤ ai) && (ai + 2 ≤ di) && (di + 1 < n) &&
      (cs.take ai).all okEmailChar &&
      ((cs.drop (ai + 1)).take (di - ai - 1)).all okEmailChar &&
      (cs.drop (di + 1)).all okEmailChar

/-! ## `JSON.parse` on the catalog `colors` field

One-pass state machine recognizing a JSON array of escape-free string
literals, with JSON whitespace allowed between tokens.  Anything else
(including a raw control character, a backslash, a trailing comma, or
trailing garbage) is a parse failure, which models `JSON.parse` throwing. -/

/-- JSON insignificant whitespace. -/
def isJsonWs (c : Char) : Bool := (c == ' ') || (c == '\t') || (c == '\n') || (c == '\r')

/-- States of the colors-array recognizer, carrying the elements read so
far (and the current literal while inside one). -/
inductive ColorsScan
  | start
  | elemOrClose (elems : List String)
  | lit (cur : List Char) (elems : List String)
  | commaOrClose (elems : List String)
  | elemRequired (elems : List String)
  | closed (elems : List String)
  | failed
  deriving Repr, DecidableEq

/-- One character step of the colors-array recognizer. -/
def colorsStep (st : ColorsScan) (c : Char) : ColorsScan :=
  match st with
  | .start =>
      if isJsonWs c then .start
      else if c = '[' then .elemOrClose []
      else .failed
  | .elemOrClose es =>
      if isJsonWs c then .elemOrClose es
      else if c = ']' then .closed es
      else if c = '"' then .lit [] es
      else .failed
  | .lit cur es =>
      if c = '"' then .commaOrClose (es ++ [String.mk cur])
      else if c = '\\' ∨ c.toNat < 32 then .failed
      else .lit (cur ++ [c]) es
  | .commaOrClose es =>
      if isJsonWs c then .commaOrClose es
      else if c = ',' then .elemRequired es
      else if c = ']' then .closed es
      else .failed
  | .elemRequired es =>
      if isJsonWs c then .elemRequired es
      else if c = '"' then .lit [] es
      else .failed
  | .closed es => if isJsonWs c then .closed es else .failed
  | .failed => .failed

/-- `JSON.parse` of a colors string on the modelled domain: `some` list of
color names when the string is a JSON array of escape-free string
literals, `none` (the thrown `SyntaxError`) otherwise. -/
def parseColorsArray (s : String) : Option (List String) :=
  match s.data.foldl colorsStep ColorsScan.start with
  | .closed es => some es
  | _ => none

/-! ## Data model -/

/-- Catalog product fields used by the purchase workflow
(`ProductForValidation`): `colors` is `some` string when the runtime value
is a string and `none` when it is any non-string value (`null`, an
array, ...). -/
structure Product where
  id : ℤ
  name : String
  price : ℚ
  status : String
  colors : Option String
  deriving Repr, DecidableEq

/-- One cart item of a `createPurchase` request. -/
structure CartItem where
  productId : ℤ
  quantity : ℤ
  selectedColor : Option String
  deriving Repr, DecidableEq

/-- A `createPurchase` request body. -/
structure CreatePurchaseRequest where
  buyerEmail : String
  buyerName : String
  buyerIdentificationNumber : String
  buyerContactNumber : String
  shippingAddress : Option String
  items : List CartItem
  deriving Repr, DecidableEq

/-- A cart item that passed validation, with its product and prices. -/
structure ValidatedCartItem where
  productId : ℤ
  quantity : ℤ
  selectedColor : Option String
  product : Product
  unitPrice : ℚ
  totalPrice : ℚ
  deriving Repr, DecidableEq

/-- Errors thrown by the purchase-creation pipeline: `ValidationError`s
with their message, or the `SyntaxError` escaping from `JSON.parse` on a
malformed colors string. -/
inductive PurchaseError
  | validation (msg : String)
  | jsonSyntaxError
  deriving Repr, DecidableEq

/-- A row of the `purchases` table. -/
structure PurchaseRow where
  id : ℤ
  buyerEmail : String
  buyerName : String
  buyerIdentificationNumber : String
  buyerContactNumber : Option String
  shippingAddress : Option String
  status : String
  orderStatus : String
  amount : ℚ
  currency : String
  paymentProvider : Option String
  externalReference : Option String
  preferenceId : Option String
  wompiTransactionId : Option String
  mercadopagoPaymentId : Option String
  createdAt : Nat
  updatedAt : Nat
  deriving Repr, DecidableEq

/-- A row of the `order_details` table. -/
structure OrderDetailRow where
  id : ℤ
  purchaseId : ℤ
  productId : ℤ
  quantity : ℤ
  unitPrice : ℚ
  totalPrice : ℚ
  selectedColor : Option String
  deriving Repr, DecidableEq

/-- The database state: tables in insertion order plus the serial
counters. -/
structure DB where
  purchases : List PurchaseRow
  orderDetails : List OrderDetailRow
  products : List Product
  nextPurchaseId : ℤ
  nextOrderDetailId : ℤ
  deriving Repr, DecidableEq

/-- `productDataSource.getById`. -/
def productById (products : List Product) (pid : ℤ) : Option Product :=
  products.find? fun p => p.id == pid

/-- `prisma.purchase.findUnique({ where: { id } })`. -/
def purchaseById (db : DB) (pid : ℤ) : Option PurchaseRow :=
  db.purchases.find? fun p => p.id == pid

/-- The order details belonging to a purchase (the Prisma
`orderDetails` relation include). -/
def detailsOf (db : DB) (pid : ℤ) : List OrderDetailRow :=
  db.orderDetails.filter fun d => d.purchaseId == pid

/-! ## `PurchaseService.createPurchase` and its validation helpers -/

/-- `PurchaseService.validatePurchaseRequest`: the five buyer-level checks
in source order.  (`!request.buyerName` is subsumed by the trimmed-length
check, and the two `.length` guards subsume their `!field` guards for the
string fields.) -/
def validatePurchaseRequest (request : CreatePurchaseRequest) : Except PurchaseError Unit :=
  if request.items.isEmpty then
    .error (.validation "At least one item is required")
  else if !emailRegexTest request.buyerEmail then
    .error (.validation "Invalid email format")
  else if (jsTrim request.buyerName).length < 2 then
    .error (.validation "Buyer name must be at least 2 characters long")
  else if request.buyerIdentificationNumber.length < 6 then
    .error (.validation "Identification number must be at least 6 characters long")
  else if request.buyerContactNumber.length < 10 then
    .error (.validation "Contact number must be at least 10 characters long")
  else
    .ok ()

/-- The `if (item.selectedColor)` block of `validateAndCalculateItems`:
skipped for an absent or empty-string color (JS truthiness); otherwise the
colors string (`'[]'` when the field is not a string) is `JSON.parse`d and
membership of the selected color is required.  `JSON.parse` of a malformed
colors string throws `SyntaxError` (`.jsonSyntaxError`), which is not a
`ValidationError`. -/
def colorCheck (product : Product) (selectedColor : Option String) : Except PurchaseError Unit :=
  match optTruthy selectedColor with
  | none => .ok ()
  | some c =>
    let colorsString := product.colors.getD "[]"
    match parseColorsArray colorsString with
    | none => .error .jsonSyntaxError
    | some availableColors =>
      if availableColors.contains c then .ok ()
      else .error (.validation ("Color " ++ c ++ " not available for " ++ product.name))

/-- One iteration of the loop in
`PurchaseService.validateAndCalculateItems`: quantity, existence,
availability and color checks, then the price snapshot. -/
def validateItem (products : List Product) (item : CartItem) : Except PurchaseError ValidatedCartItem :=
  if item.quantity ≤ 0 then
    .error (.validation ("Quantity must be greater than 0 for product " ++ toString item.productId))
  else
    match productById products item.productId with
    | none => .error (.validation ("Product " ++ toString item.productId ++ " not found"))
    | some product =>
      if product.status ≠ "available" then
        .error (.validation ("Product " ++ product.name ++ " is not available"))
      else
        (colorCheck product item.selectedColor).map fun _ =>
          let unitPrice := product.price
          { productId := item.productId
            quantity := item.quantity
            selectedColor := item.selectedColor
            product := product
            unitPrice := unitPrice
            totalPrice := unitPrice * (item.quantity : ℚ) }

/-- `PurchaseService.validateAndCalculateItems`: validate the cart items
in order, stopping at the first failing item. -/
def validateAndCalculateItems (products : List Product) : List CartItem → Except PurchaseError (List ValidatedCartItem)
  | [] => .ok []
  | item :: rest => do
    let v ← validateItem products item
    let vs ← validateAndCalculateItems products rest
    .ok (v :: vs)

/-- The argument record of `wompiService.createPayment` as called by
`createPurchase` (product ids are passed as `wallpaperNumbers`). -/
structure GatewayCall where
  wallpaperNumbers : List ℤ
  amount : ℚ
  buyerEmail : String
  buyerName : String
  buyerIdentificationNumber : String
  buyerContactNumber : String
  deriving Repr, DecidableEq

/-- The gateway's answer to `createPayment`, supplied as a model
parameter. -/
structure GatewayResponse where
  transactionId : String
  paymentUrl : String
  deriving Repr, DecidableEq

/-- One line of the `items` array in a `CreatePurchaseResponse`. -/
structure ResponseItem where
  productId : ℤ
  productName : String
  quantity : ℤ
  unitPrice : ℚ
  totalPrice : ℚ
  selectedColor : Option String
  deriving Repr, DecidableEq

/-- The success payload of `createPurchase`. -/
structure CreatePurchaseResponse where
  purchaseId : ℤ
  wompiTransactionId : String
  paymentUrl : String
  totalAmount : ℚ
  items : List ResponseItem
  deriving Repr, DecidableEq

deriving instance DecidableEq for Except

/-- Everything observable about one `createPurchase` run: the database it
leaves behind, the gateway calls it made, and its result. -/
structure CreatePurchaseOutcome where
  db : DB
  gatewayCalls : List GatewayCall
  result : Except PurchaseError CreatePurchaseResponse
  deriving Repr, DecidableEq

/-- `PurchaseService.createPurchase`.  Validation happens before any
write; then the `Purchase` row is created (status `PENDING`, amount
`Math.round(total * 100)`), one `OrderDetail` per validated item, the
gateway is called, and the purchase is updated with the gateway
transaction id.  `now` is `Date.now()` and `randFrac` the base-36
fraction digits of the `Math.random()` draw. -/
def createPurchase (db : DB) (request : CreatePurchaseRequest) (now : Nat)
    (randFrac : List (Fin 36)) (gw : GatewayResponse) : CreatePurchaseOutcome :=
  match validatePurchaseRequest request with
  | .error e => ⟨db, [], .error e⟩
  | .ok _ =>
    match validateAndCalculateItems db.products request.items with
    | .error e => ⟨db, [], .error e⟩
    | .ok validatedItems =>
      let totalAmount := validatedItems.foldl (fun sum item => sum + item.totalPrice) 0
      let externalReference := mkExternalReference now randFrac
      let purchaseId := db.nextPurchaseId
      let purchase : PurchaseRow :=
        { id := purchaseId
          buyerEmail := request.buyerEmail
          buyerName := request.buyerName
          buyerIdentificationNumber := request.buyerIdentificationNumber
          buyerContactNumber := some request.buyerContactNumber
          shippingAddress := request.shippingAddress
          status := "PENDING"
          orderStatus := "PENDING"
          amount := (jsRound (totalAmount * 100) : ℚ)
          currency := "COP"
          paymentProvider := some "WOMPI"
          externalReference := some externalReference
          preferenceId := some ""
          wompiTransactionId := none
          mercadopagoPaymentId := none
          createdAt := now
          updatedAt := now }
      let details : List OrderDetailRow :=
        validatedItems.enum.map fun iv =>
          { id := db.nextOrderDetailId + (iv.1 : ℤ)
            purchaseId := purchaseId
            productId := iv.2.productId
            quantity := iv.2.quantity
            unitPrice := iv.2.unitPrice
            totalPrice := iv.2.totalPrice
            selectedColor := iv.2.selectedColor }
      let call : GatewayCall :=
        { wallpaperNumbers := validatedItems.map (·.productId)
          amount := totalAmount
          buyerEmail := request.buyerEmail
          buyerName := request.buyerName
          buyerIdentificationNumber := request.buyerIdentificationNumber
          buyerContactNumber := request.buyerContactNumber }
      let afterCreate : DB :=
        { db with
          purchases := db.purchases ++ [purchase]
          orderDetails := db.orderDetails ++ details
          nextPurchaseId := purchaseId + 1
          nextOrderDetailId := db.nextOrderDetailId + (validatedItems.length : ℤ) }
      let finalDb : DB :=
        { afterCreate with
          purchases := afterCreate.purchases.map fun p =>
            if p.id == purchaseId then
              { p with preferenceId := some gw.transactionId
                       wompiTransactionId := some gw.transactionId }
            else p }
      ⟨finalDb, [call],
        .ok
          { purchaseId := purchaseId
            wompiTransactionId := gw.transactionId
            paymentUrl := gw.paymentUrl
            totalAmount := totalAmount
            items := validatedItems.map fun item =>
              { productId := item.productId
                productName := item.product.name
                quantity := item.quantity
                unitPrice := item.unitPrice
                totalPrice := item.totalPrice
                selectedColor := item.selectedColor } }⟩

/-! ## `PurchaseService.updatePaymentStatus` -/

/-- The purchase lookup of `updatePaymentStatus`: `findFirst` by
`wompiTransactionId`, then — only when the first lookup misses and the
optional `externalReference` is truthy — `findFirst` by
`externalReference`. -/
def findPurchaseForPayment (db : DB) (wompiTransactionId : String)
    (externalReference : Option String) : Option PurchaseRow :=
  match db.purchases.find? (fun p => p.wompiTransactionId == some wompiTransactionId) with
  | some p => some p
  | none =>
    match optTruthy externalReference with
    | some ref => db.purchases.find? fun p => p.externalReference == some ref
    | none => none

/-- `PurchaseService.updatePaymentStatus`: a logged no-op when no purchase
matches; otherwise overwrite `status`, `wompiTransactionId` and
`updatedAt` of the matched row. -/
def updatePaymentStatus (db : DB) (wompiTransactionId status : String)
    (externalReference : Option String) (now : Nat) : DB :=
  match findPurchaseForPayment db wompiTransactionId externalReference with
  | none => db
  | some purchase =>
    { db with
      purchases := db.purchases.map fun p =>
        if p.id == purchase.id then
          { p with status := status
                   wompiTransactionId := some wompiTransactionId
                   updatedAt := now }
        else p }

/-! ## `PurchaseService.getPurchasesByEmail` -/

/-- One line of a `FormattedPurchase`. -/
structure FormattedItem where
  productId : ℤ
  productName : String
  quantity : ℤ
  unitPrice : ℚ
  totalPrice : ℚ
  selectedColor : Option String
  deriving Repr, DecidableEq

/-- The `FormattedPurchase` projection returned by the query methods. -/
structure FormattedPurchase where
  id : ℤ
  buyerEmail : String
  buyerName : String
  buyerContactNumber : Option String
  status : String
  orderStatus : String
  amount : ℚ
  currency : String
  mercadopagoPaymentId : Option String
  wallpaperNumbers : List ℤ
  items : List FormattedItem
  createdAt : Nat
  updatedAt : Nat
  deriving Repr, DecidableEq

/-- `detail.product?.name || fallback`: the fallback when the product row
is gone, and also when its name is the empty string (JS `||`). -/
def resolveProductName (products : List Product) (productId : ℤ) (fallback : String) : String :=
  match productById products productId with
  | some p => if p.name = "" then fallback else p.name
  | none => fallback

/-- The `FormattedPurchase` built from a purchase row and its details. -/
def formatPurchase (db : DB) (nameFallback : String) (purchase : PurchaseRow) : FormattedPurchase :=
  let details := detailsOf db purchase.id
  { id := purchase.id
    buyerEmail := purchase.buyerEmail
    buyerName := purchase.buyerName
    buyerContactNumber := purchase.buyerContactNumber
    status := purchase.status
    orderStatus := purchase.orderStatus
    amount := purchase.amount
    currency := purchase.currency
    mercadopagoPaymentId := purchase.mercadopagoPaymentId
    wallpaperNumbers := details.map (·.productId)
    items := details.map fun d =>
      { productId := d.productId
        productName := resolveProductName db.products d.productId nameFallback
        quantity := d.quantity
        unitPrice := d.unitPrice
        totalPrice := d.totalPrice
        selectedColor := d.selectedColor }
    createdAt := purchase.createdAt
    updatedAt := purchase.updatedAt }

/-- `PurchaseService.getPurchasesByEmail`: the buyer's purchases, ordered
by `updatedAt` descending, formatted with the `"Unknown Product"`
fallback. -/
def getPurchasesByEmail (db : DB) (email : String) : List FormattedPurchase :=
  ((db.purchases.filter fun p => p.buyerEmail == email).mergeSort
      (fun a b => b.updatedAt ≤ a.updatedAt)).map
    (formatPurchase db "Unknown Product")

/-! ## `PurchaseService.generateBackupData` -/

/-- The aggregate statistics block of a backup. -/
structure PurchaseStatistics where
  totalPurchases : Nat
  approvedCount : Nat
  completedCount : Nat
  pendingCount : Nat
  cancelledCount : Nat
  rejectedCount : Nat
  failedCount : Nat
  totalRevenue : ℚ
  uniqueProductsSold : Nat
  deriving Repr, DecidableEq

/-- A full backup export. -/
structure BackupData where
  statistics : PurchaseStatistics
  allPurchases : List FormattedPurchase
  generatedAt : Nat
  deriving Repr, DecidableEq

/-- One iteration of the statistics loop of `generateBackupData`: the
`switch` on the upper-cased status, accumulating counters, revenue and the
`soldProducts` set. -/
def backupStep (db : DB) (acc : PurchaseStatistics × Finset ℤ) (purchase : PurchaseRow) :
    PurchaseStatistics × Finset ℤ :=
  let st := acc.1
  let sold := acc.2
  let status := jsToUpperCase purchase.status
  if status = "APPROVED" then
    ({ st with approvedCount := st.approvedCount + 1
               totalRevenue := st.totalRevenue + purchase.amount },
     (detailsOf db purchase.id).foldl (fun s d => insert d.productId s) sold)
  else if status = "COMPLETED" then
    ({ st with completedCount := st.completedCount + 1
               totalRevenue := st.totalRevenue + purchase.amount },
     (detailsOf db purchase.id).foldl (fun s d => insert d.productId s) sold)
  else if status = "PENDING" then ({ st with pendingCount := st.pendingCount + 1 }, sold)
  else if status = "CANCELLED" then ({ st with cancelledCount := st.cancelledCount + 1 }, sold)
  else if status = "REJECTED" then ({ st with rejectedCount := st.rejectedCount + 1 }, sold)
  else if status = "FAILED" then ({ st with failedCount := st.failedCount + 1 }, sold)
  else (st, sold)

/-- `PurchaseService.generateBackupData`: all purchases newest-created
first, the statistics loop, then `uniqueProductsSold` from the
`soldProducts` set.  (This code path formats missing product names as
`"Unknown"`.) -/
def generateBackupData (db : DB) (now : Nat) : BackupData :=
  let purchases := db.purchases.mergeSort fun a b => b.createdAt ≤ a.createdAt
  let init : PurchaseStatistics :=
    { totalPurchases := purchases.length
      approvedCount := 0, completedCount := 0, pendingCount := 0
      cancelledCount := 0, rejectedCount := 0, failedCount := 0
      totalRevenue := 0, uniqueProductsSold := 0 }
  let acc := purchases.foldl (backupStep db) (init, (∅ : Finset ℤ))
  { statistics := { acc.1 with uniqueProductsSold := acc.2.card }
    allPurchases := purchases.map (formatPurchase db "Unknown")
    generatedAt := now }

/-! ## `PurchaseService.resendEmailForPurchase` -/

/-- The payload handed to `emailService.sendPaymentConfirmationEmail`. -/
structure EmailPayload where
  buyerEmail : String
  buyerName : String
  buyerContactNumber : String
  items : List FormattedItem
  totalAmount : ℚ
  currency : String
  status : String
  paymentId : String
  purchaseDate : Nat
  deriving Repr, DecidableEq

/-- The result record of `resendEmailForPurchase`. -/
structure ResendResult where
  success : Bool
  message : String
  deriving Repr, DecidableEq

/-- `PurchaseService.resendEmailForPurchase`: error when the purchase is
missing or its upper-cased status is not `APPROVED`/`COMPLETED`; otherwise
send exactly one confirmation email.  The first component lists the
`sendPaymentConfirmationEmail` calls made. -/
def resendEmailForPurchase (db : DB) (purchaseId : ℤ) :
    List EmailPayload × Except String ResendResult :=
  match purchaseById db purchaseId with
  | none => ([], .error "Purchase not found")
  | some purchase =>
    if !(["APPROVED", "COMPLETED"].contains (jsToUpperCase purchase.status)) then
      ([], .error ("Cannot resend email. Purchase status is: " ++ purchase.status ++
        ". Only APPROVED or COMPLETED purchases can have emails resent."))
    else
      let payload : EmailPayload :=
        { buyerEmail := purchase.buyerEmail
          buyerName := purchase.buyerName
          buyerContactNumber := purchase.buyerContactNumber.getD "No proporcionado"
          items := (detailsOf db purchase.id).map fun d =>
            { productId := d.productId
              productName := resolveProductName db.products d.productId "Unknown Product"
              quantity := d.quantity
              unitPrice := d.unitPrice
              totalPrice := d.totalPrice
              selectedColor := d.selectedColor }
          totalAmount := purchase.amount
          currency := purchase.currency
          status := purchase.status
          paymentId := purchase.wompiTransactionId.getD "N/A"
          purchaseDate := purchase.updatedAt }
      ([payload], .ok { success := true, message := "Payment confirmation email resent successfully" })

/-! ## `PurchaseService.updatePurchase` -/

/-- The patch accepted by `updatePurchase`. -/
structure UpdatePurchaseData where
  buyerEmail : Option String
  buyerName : Option String
  buyerContactNumber : Option String
  deriving Repr, DecidableEq

/-- The result record of `updatePurchase`. -/
structure UpdatePurchaseResult where
  success : Bool
  message : String
  updatedPurchase : FormattedPurchase
  deriving Repr, DecidableEq

/-- `PurchaseService.updatePurchase`: look the purchase up, validate the
truthy patch fields (JS `if (updateData.buyerEmail)` skips `undefined` and
the empty string alike), then write only the truthy buyer fields (the name
trimmed) and `updatedAt`. -/
def updatePurchase (db : DB) (purchaseId : ℤ) (updateData : UpdatePurchaseData) (now : Nat) :
    DB × Except String UpdatePurchaseResult :=
  match purchaseById db purchaseId with
  | none => (db, .error "Purchase not found")
  | some purchase =>
    if (optTruthy updateData.buyerEmail).any (fun e => !emailRegexTest e) then
      (db, .error "Invalid email format")
    else if (optTruthy updateData.buyerName).any (fun n => (jsTrim n).length < 2) then
      (db, .error "Buyer name must be at least 2 characters long")
    else
      let apply := fun (p : PurchaseRow) =>
        { p with
          updatedAt := now
          buyerEmail := (optTruthy updateData.buyerEmail).getD p.buyerEmail
          buyerName := ((optTruthy updateData.buyerName).map jsTrim).getD p.buyerName
          buyerContactNumber :=
            match optTruthy updateData.buyerContactNumber with
            | some c => some c
            | none => p.buyerContactNumber }
      let db' : DB :=
        { db with purchases := db.purchases.map fun p => if p.id == purchase.id then apply p else p }
      (db',
        .ok
          { success := true
            message := "Purchase updated successfully"
            updatedPurchase := formatPurchase db' "Unknown Product" (apply purchase) })

/-! ## Shared lemmas -/

/-- A purchase returned by the payment lookup is a row of the table. -/
lemma findPurchaseForPayment_mem {db : DB} {txId : String} {extRef : Option String}
    {p : PurchaseRow} (h : findPurchaseForPayment db txId extRef = some p) :
    p ∈ db.purchases := by
  unfold findPurchaseForPayment at h
  cases h1 : db.purchases.find? (fun q => q.wompiTransactionId == some txId) with
  | some q =>
    rw [h1] at h
    cases h
    exact List.mem_of_find?_eq_some h1
  | none =>
    rw [h1] at h
    cases h2 : optTruthy extRef with
    | none => rw [h2] at h; cases h
    | some ref =>
      rw [h2] at h
      exact List.mem_of_find?_eq_some h

/-! ## Claim C3: `updatePaymentStatus` lookup, no-op on miss, unconditional overwrite -/

/-- C3: `updatePaymentStatus(transactionId, status, context?)` looks the
purchase up by gateway transaction id, falls back to `externalReference`
when the first lookup misses and the reference is provided (truthy); when
no purchase matches it returns with no writes; when one matches, its
`status` and `updatedAt` are overwritten with the given values
unconditionally — for every current status and every new status value. -/
theorem updatePaymentStatus_lookup_and_overwrite (db : DB) (txId status : String)
    (extRef : Option String) (now : Nat) :
    (∀ q, db.purchases.find? (fun p => p.wompiTransactionId == some txId) = some q →
        findPurchaseForPayment db txId extRef = some q)
    ∧ (db.purchases.find? (fun p => p.wompiTransactionId == some txId) = none →
        ∀ ref, optTruthy extRef = some ref →
          findPurchaseForPayment db txId extRef
            = db.purchases.find? (fun p => p.externalReference == some ref))
    ∧ (findPurchaseForPayment db txId extRef = none →
        updatePaymentStatus db txId status extRef now = db)
    ∧ (∀ purchase, findPurchaseForPayment db txId extRef = some purchase →
        ∃ row ∈ (updatePaymentStatus db txId status extRef now).purchases,
          row.id = purchase.id ∧ row.status = status ∧ row.updatedAt = now) := by
  refine ⟨?_, ?_, ?_, ?_⟩
  · intro q hq
    unfold findPurchaseForPayment
    rw [hq]
  · intro hmiss ref href
    unfold findPurchaseForPayment
    rw [hmiss, href]
  · intro hnone
    unfold updatePaymentStatus
    rw [hnone]
  · intro purchase hfound
    have hmem : purchase ∈ db.purchases := findPurchaseForPayment_mem hfound
    unfold updatePaymentStatus
    rw [hfound]
    refine ⟨_, List.mem_map_of_mem _ hmem, ?_⟩
    simp

/-- Witness for C3 on a concrete database: an unknown transaction id with
no fallback reference is a no-op, and a known transaction id gets its row
overwritten. -/
def payRow : PurchaseRow :=
  { id := 1
    buyerEmail := "b@c.co", buyerName := "Bo"
    buyerIdentificationNumber := "123456", buyerContactNumber := some "3000000000"
    shippingAddress := none
    status := "PENDING", orderStatus := "PENDING"
    amount := 10000, currency := "COP"
    paymentProvider := some "WOMPI"
    externalReference := some "REF-1-abc"
    preferenceId := some "old-tx"
    wompiTransactionId := some "old-tx"
    mercadopagoPaymentId := none
    createdAt := 10, updatedAt := 10 }

/-- A one-purchase database for the reconciliation witnesses. -/
def payDb : DB :=
  { purchases := [payRow], orderDetails := [], products := []
    nextPurchaseId := 2, nextOrderDetailId := 1 }

theorem updatePaymentStatus_lookup_and_overwrite_witness :
    updatePaymentStatus payDb "unknown-tx" "APPROVED" none 99 = payDb
    ∧ ∃ row ∈ (updatePaymentStatus payDb "old-tx" "APPROVED" none 99).purchases,
        row.id = payRow.id ∧ row.status = "APPROVED" ∧ row.updatedAt = 99 :=
  ⟨(updatePaymentStatus_lookup_and_overwrite payDb "unknown-tx" "APPROVED" none 99).2.2.1
      (by decide),
   (updatePaymentStatus_lookup_and_overwrite payDb "old-tx" "APPROVED" none 99).2.2.2
      payRow (by decide)⟩

/-! ## Claim C10: `updatePaymentStatus` also overwrites `wompiTransactionId` -/

/-- C10: whenever `updatePaymentStatus` finds a matching purchase —
including one matched only through the `externalReference` fallback — it
overwrites the row's stored `wompiTransactionId` with the caller-supplied
transaction id, a write beyond `status` and `updatedAt`. -/
theorem updatePaymentStatus_overwrites_transactionId (db : DB) (txId status : String)
    (extRef : Option String) (now : Nat) (purchase : PurchaseRow)
    (h : findPurchaseForPayment db txId extRef = some purchase) :
    ∃ row ∈ (updatePaymentStatus db txId status extRef now).purchases,
      row.id = purchase.id ∧ row.wompiTransactionId = some txId := by
  have hmem : purchase ∈ db.purchases := findPurchaseForPayment_mem h
  unfold updatePaymentStatus
  rw [h]
  refine ⟨_, List.mem_map_of_mem _ hmem, ?_⟩
  simp

/-- Witness for C10: `payRow` stores gateway id `"old-tx"`; a webhook for
the unknown id `"new-tx"` carrying the row's external reference matches
through the fallback and replaces the stored gateway id with
`"new-tx"`. -/
theorem updatePaymentStatus_overwrites_transactionId_witness :
    ∃ row ∈ (updatePaymentStatus payDb "new-tx" "APPROVED" (some "REF-1-abc") 99).purchases,
      row.id = payRow.id ∧ row.wompiTransactionId = some "new-tx" :=
  updatePaymentStatus_overwrites_transactionId payDb "new-tx" "APPROVED"
    (some "REF-1-abc") 99 payRow (by decide)

/-! ## Claim C5: the external-reference token format -/

/-- The format asserted by the spec sentence
"`externalReference` format always matches `REF-<digits>-<9 alphanumerics>`":
the literal `REF-`, a nonempty run of decimal digits, a hyphen, and
exactly 9 base-36 alphanumerics. -/
def refMatchesSpecFormat (s : String) : Bool :=
  let cs := s.data
  (cs.take 4 == ['R', 'E', 'F', '-']) &&
  (let r := cs.drop 4
   (List.range r.length).any fun i =>
     (1 ≤ i) && (r.take i).all Char.isDigit && (r.get? i == some '-') &&
     ((r.drop (i + 1)).length == 9) && (r.drop (i + 1)).all isBase36Char)

lemma toDigitsCore_all_digits :
    ∀ (f n : Nat) (l : List Char), (∀ c ∈ l, c.isDigit = true) →
      ∀ c ∈ Nat.toDigitsCore 10 f n l, c.isDigit = true := by
  have hdig : ∀ m : Nat, m < 10 → (Nat.digitChar m).isDigit = true := by decide
  intro f
  induction f with
  | zero => intro n l hl c hc; exact hl c hc
  | succ f ih =>
    intro n l hl c hc
    simp only [Nat.toDigitsCore] at hc
    have hcons : ∀ c ∈ Nat.digitChar (n % 10) :: l, c.isDigit = true := by
      intro c hc
      rcases List.mem_cons.mp hc with h | h
      · subst h; exact hdig _ (Nat.mod_lt _ (by norm_num))
      · exact hl c h
    by_cases hz : n / 10 = 0
    · rw [if_pos hz] at hc
      exact hcons c hc
    · rw [if_neg hz] at hc
      exact ih _ _ hcons c hc

lemma toDigitsCore_length_ge :
    ∀ (f n : Nat) (l : List Char), l.length ≤ (Nat.toDigitsCore 10 f n l).length := by
  intro f
  induction f with
  | zero => intro n l; simp [Nat.toDigitsCore]
  | succ f ih =>
    intro n l
    simp only [Nat.toDigitsCore]
    by_cases hz : n / 10 = 0
    · rw [if_pos hz]; simp
    · rw [if_neg hz]
      calc l.length ≤ (Nat.digitChar (n % 10) :: l).length := by simp
        _ ≤ _ := ih _ _

/-- Every character of the decimal printing of a natural number is a
decimal digit, and the printing is nonempty. -/
lemma toString_nat_digits (n : Nat) :
    (toString n).data.all Char.isDigit = true ∧ (toString n).data ≠ [] := by
  have hdata : (toString n).data = Nat.toDigitsCore 10 (n + 1) n [] := rfl
  constructor
  · rw [List.all_eq_true, hdata]
    intro c hc
    exact toDigitsCore_all_digits (n + 1) n [] (by simp) c hc
  · rw [hdata]
    intro hnil
    have h1 : (1 : Nat) ≤ (Nat.toDigitsCore 10 (n + 1) n []).length := by
      simp only [Nat.toDigitsCore]
      by_cases hz : n / 10 = 0
      · rw [if_pos hz]; simp
      · rw [if_neg hz]
        calc (1 : Nat) = ([Nat.digitChar (n % 10)] : List Char).length := by simp
          _ ≤ _ := toDigitsCore_length_ge _ _ _
    rw [hnil] at h1
    simp at h1

lemma isBase36Char_base36Char : ∀ d : Fin 36, isBase36Char (base36Char d) = true := by decide

/-- C5 (amended): every generated token decomposes as
`REF-<decimal Date.now()>-<suffix>` where the timestamp part is a
nonempty all-digit string and the suffix consists of base-36
alphanumerics but has length at most 9 — possibly fewer than 9, because
`Math.random().toString(36).substr(2, 9)` yields fewer characters when
the random draw has a short base-36 expansion. -/
theorem mkExternalReference_format (now : Nat) (ds : List (Fin 36)) :
    ∃ suffix : String,
      mkExternalReference now ds = "REF-" ++ toString now ++ "-" ++ suffix
      ∧ suffix.length ≤ 9
      ∧ suffix.data.all isBase36Char = true
      ∧ (toString now).data.all Char.isDigit = true
      ∧ (toString now).data ≠ [] := by
  refine ⟨jsSubstr (jsRandomToString36 ds) 2 9, rfl, ?_, ?_,
    (toString_nat_digits now).1, (toString_nat_digits now).2⟩
  · show (((jsRandomToString36 ds).data.drop 2).take 9).length ≤ 9
    exact List.length_take_le 9 _
  · rw [List.all_eq_true]
    intro c hc
    have hc' : c ∈ ((jsRandomToString36 ds).data.drop 2).take 9 := hc
    have hc2 : c ∈ (jsRandomToString36 ds).data.drop 2 := List.mem_of_mem_take hc'
    cases hds : ds with
    | nil =>
      rw [hds] at hc2
      simp [jsRandomToString36] at hc2
    | cons d rest =>
      rw [hds] at hc2
      have hdat : (jsRandomToString36 (d :: rest)).data
          = '0' :: '.' :: (d :: rest).map base36Char := by
        simp [jsRandomToString36]
      rw [hdat] at hc2
      simp only [List.drop_succ_cons, List.drop_zero] at hc2
      rcases List.mem_map.mp hc2 with ⟨e, _, he⟩
      rw [← he]
      exact isBase36Char_base36Char e

/-- Counterexample to C5 as stated: with `Date.now() = 0` and
`Math.random() = 0.5` (base-36 printing `"0.i"`, a genuine double), the
generated token is `REF-0-i`, whose random suffix has 1 character, not 9,
so the token does not match `REF-<digits>-<9 alphanumerics>`. -/
theorem mkExternalReference_format_counterexample :
    mkExternalReference 0 [(18 : Fin 36)] = "REF-0-i"
    ∧ refMatchesSpecFormat (mkExternalReference 0 [(18 : Fin 36)]) = false := by
  constructor
  · decide
  · decide

/-! ## Claim C8: `resendEmailForPurchase` -/

/-- C8: `resendEmailForPurchase` fails with a domain error when the
purchase does not exist or its (upper-cased) status is neither `APPROVED`
nor `COMPLETED` — sending no email in either case — and on an
`APPROVED`/`COMPLETED` purchase it succeeds and calls
`sendPaymentConfirmationEmail` exactly once. -/
theorem resendEmailForPurchase_contract (db : DB) (pid : ℤ) :
    (purchaseById db pid = none →
        resendEmailForPurchase db pid = ([], .error "Purchase not found"))
    ∧ (∀ p, purchaseById db pid = some p →
        (["APPROVED", "COMPLETED"].contains (jsToUpperCase p.status)) = false →
        (resendEmailForPurchase db pid).1 = []
        ∧ (resendEmailForPurchase db pid).2.isOk = false)
    ∧ (∀ p, purchaseById db pid = some p →
        (["APPROVED", "COMPLETED"].contains (jsToUpperCase p.status)) = true →
        (resendEmailForPurchase db pid).1.length = 1
        ∧ (resendEmailForPurchase db pid).2
            = Except.ok { success := true
                          message := "Payment confirmation email resent successfully" }) := by
  refine ⟨?_, ?_, ?_⟩
  · intro hnone
    unfold resendEmailForPurchase
    rw [hnone]
  · intro p hp hstat
    have h2 : ¬jsToUpperCase p.status = "APPROVED" ∧ ¬jsToUpperCase p.status = "COMPLETED" := by
      simpa using hstat
    refine ⟨?_, ?_⟩
    · simp [resendEmailForPurchase, hp, h2.1, h2.2]
    · simp [resendEmailForPurchase, hp, h2.1, h2.2, Except.isOk, Except.toBool]
  · intro p hp hstat
    have h2 : jsToUpperCase p.status = "APPROVED" ∨ jsToUpperCase p.status = "COMPLETED" := by
      simpa using hstat
    have h3 : ¬(¬jsToUpperCase p.status = "APPROVED" ∧ ¬jsToUpperCase p.status = "COMPLETED") := by
      tauto
    refine ⟨?_, ?_⟩
    · simp [resendEmailForPurchase, hp, h3]
    · simp [resendEmailForPurchase, hp, h3]

/-- A two-purchase database for the resend witnesses: purchase 1 is
`COMPLETED`, purchase 2 is `PENDING`. -/
def resendDb : DB :=
  { purchases :=
      [ { payRow with id := 1, status := "COMPLETED" },
        { payRow with id := 2, status := "PENDING" } ]
    orderDetails := [], products := []
    nextPurchaseId := 3, nextOrderDetailId := 1 }

theorem resendEmailForPurchase_contract_witness :
    ((resendEmailForPurchase resendDb 1).1.length = 1
      ∧ (resendEmailForPurchase resendDb 1).2
          = Except.ok { success := true
                        message := "Payment confirmation email resent successfully" })
    ∧ ((resendEmailForPurchase resendDb 2).1 = []
      ∧ (resendEmailForPurchase resendDb 2).2.isOk = false)
    ∧ resendEmailForPurchase resendDb 3 = ([], Except.error "Purchase not found") :=
  ⟨(resendEmailForPurchase_contract resendDb 1).2.2 { payRow with id := 1, status := "COMPLETED" }
      (by decide) (by decide),
   (resendEmailForPurchase_contract resendDb 2).2.1 { payRow with id := 2, status := "PENDING" }
      (by decide) (by decide),
   (resendEmailForPurchase_contract resendDb 3).1 (by decide)⟩

/-! ## Claim C9: `updatePurchase` mutates only buyer-contact fields -/

/-- The frame respected by `updatePurchase`: every `PurchaseRow` field
other than `buyerEmail`, `buyerName`, `buyerContactNumber` and
`updatedAt` is unchanged. -/
def buyerFrameEq (r r' : PurchaseRow) : Prop :=
  r'.id = r.id
  ∧ r'.buyerIdentificationNumber = r.buyerIdentificationNumber
  ∧ r'.shippingAddress = r.shippingAddress
  ∧ r'.status = r.status
  ∧ r'.orderStatus = r.orderStatus
  ∧ r'.amount = r.amount
  ∧ r'.currency = r.currency
  ∧ r'.paymentProvider = r.paymentProvider
  ∧ r'.externalReference = r.externalReference
  ∧ r'.preferenceId = r.preferenceId
  ∧ r'.wompiTransactionId = r.wompiTransactionId
  ∧ r'.mercadopagoPaymentId = r.mercadopagoPaymentId
  ∧ r'.createdAt = r.createdAt

/-- Counterexample to C9 as stated: a patch whose `buyerEmail` is present
but equal to `""` is an invalid email (`emailRegexTest "" = false`), yet
`updatePurchase` succeeds — `if (updateData.buyerEmail)` treats the empty
string as absent, so the field is neither re-validated nor written. -/
theorem updatePurchase_empty_email_counterexample :
    emailRegexTest "" = false
    ∧ (updatePurchase payDb 1 { buyerEmail := some "", buyerName := none
                                buyerContactNumber := none } 99).2.isOk = true
    ∧ ((updatePurchase payDb 1 { buyerEmail := some "", buyerName := none
                                 buyerContactNumber := none } 99).1.purchases.map
          (fun r => r.buyerEmail)) = ["b@c.co"] := by
  refine ⟨by decide, by decide, by decide⟩

/-- C9 (amended): `updatePurchase` re-validates email format and trimmed
name length whenever those patch fields are present and nonempty (an
empty-string field is ignored — neither validated nor written), failing
without a write when one is invalid; on success only `buyerEmail`,
`buyerName`, `buyerContactNumber` and `updatedAt` can change — every
other purchase field, every order detail and every product is
unchanged. -/
theorem updatePurchase_contract (db : DB) (pid : ℤ) (upd : UpdatePurchaseData) (now : Nat) :
    (∀ p e, purchaseById db pid = some p → optTruthy upd.buyerEmail = some e →
        emailRegexTest e = false →
        updatePurchase db pid upd now = (db, Except.error "Invalid email format"))
    ∧ (∀ p n, purchaseById db pid = some p →
        (optTruthy upd.buyerEmail).all emailRegexTest = true →
        optTruthy upd.buyerName = some n → (jsTrim n).length < 2 →
        updatePurchase db pid upd now
          = (db, Except.error "Buyer name must be at least 2 characters long"))
    ∧ (∀ db' res, updatePurchase db pid upd now = (db', Except.ok res) →
        db'.orderDetails = db.orderDetails
        ∧ db'.products = db.products
        ∧ List.Forall₂ buyerFrameEq db.purchases db'.purchases) := by
  refine ⟨?_, ?_, ?_⟩
  · intro p e hp he hbad
    have hc : ((optTruthy upd.buyerEmail).any fun x => !emailRegexTest x) = true := by
      rw [he]
      simp [Option.any, hbad]
    simp [updatePurchase, hp, hc]
  · intro p n hp hall hn hshort
    have hc1 : ((optTruthy upd.buyerEmail).any fun x => !emailRegexTest x) = false := by
      cases he : optTruthy upd.buyerEmail with
      | none => simp [Option.any]
      | some e =>
        rw [he] at hall
        simp [Option.all] at hall
        simp [Option.any, hall]
    have hc2 : ((optTruthy upd.buyerName).any fun x => decide ((jsTrim x).length < 2)) = true := by
      rw [hn]
      simp [Option.any, hshort]
    simp [updatePurchase, hp, hc1, hc2]
  · intro db' res h
    unfold updatePurchase at h
    cases hp : purchaseById db pid with
    | none =>
      simp only [hp] at h
      exact absurd (congrArg Prod.snd h) (by simp)
    | some purchase =>
      simp only [hp] at h
      by_cases hc1 : ((optTruthy upd.buyerEmail).any fun x => !emailRegexTest x) = true
      · rw [if_pos hc1] at h
        exact absurd (congrArg Prod.snd h) (by simp)
      · rw [if_neg hc1] at h
        by_cases hc2 : ((optTruthy upd.buyerName).any fun x => decide ((jsTrim x).length < 2)) = true
        · rw [if_pos hc2] at h
          exact absurd (congrArg Prod.snd h) (by simp)
        · rw [if_neg hc2] at h
          have hdb := congrArg Prod.fst h
          subst hdb
          refine ⟨rfl, rfl, ?_⟩
          have hframe : List.Forall₂ buyerFrameEq db.purchases (db.purchases.map fun p =>
              if p.id == purchase.id then
                { p with
                  updatedAt := now
                  buyerEmail := (optTruthy upd.buyerEmail).getD p.buyerEmail
                  buyerName := ((optTruthy upd.buyerName).map jsTrim).getD p.buyerName
                  buyerContactNumber :=
                    match optTruthy upd.buyerContactNumber with
                    | some c => some c
                    | none => p.buyerContactNumber }
              else p) := by
            rw [List.forall₂_map_right_iff, List.forall₂_same]
            intro r _
            by_cases hr : (r.id == purchase.id) = true
            · rw [if_pos hr]
              exact ⟨rfl, rfl, rfl, rfl, rfl, rfl, rfl, rfl, rfl, rfl, rfl, rfl, rfl⟩
            · rw [if_neg hr]
              exact ⟨rfl, rfl, rfl, rfl, rfl, rfl, rfl, rfl, rfl, rfl, rfl, rfl, rfl⟩
          exact hframe

/-- The database `payDb` after the valid patch used in the C9 witness. -/
def patchedPayDb : DB :=
  { purchases :=
      [ { payRow with buyerEmail := "new@x.co", buyerName := "Bob"
                      buyerContactNumber := some "3111111111", updatedAt := 7 } ]
    orderDetails := [], products := []
    nextPurchaseId := 2, nextOrderDetailId := 1 }

/-- Witness for C9 (amended): a fully valid patch on `payDb` succeeds and
the frame condition holds for the resulting database. -/
theorem updatePurchase_contract_witness :
    ∃ res,
      updatePurchase payDb 1 { buyerEmail := some "new@x.co", buyerName := some " Bob "
                               buyerContactNumber := some "3111111111" } 7
        = (patchedPayDb, Except.ok res)
      ∧ patchedPayDb.orderDetails = payDb.orderDetails
      ∧ patchedPayDb.products = payDb.products
      ∧ List.Forall₂ buyerFrameEq payDb.purchases patchedPayDb.purchases := by
  have heq : updatePurchase payDb 1
      { buyerEmail := some "new@x.co", buyerName := some " Bob "
        buyerContactNumber := some "3111111111" } 7
      = (patchedPayDb,
         Except.ok
           { success := true
             message := "Purchase updated successfully"
             updatedPurchase := formatPurchase patchedPayDb "Unknown Product"
               { payRow with buyerEmail := "new@x.co", buyerName := "Bob"
                             buyerContactNumber := some "3111111111", updatedAt := 7 } }) := by
    decide
  have h := (updatePurchase_contract payDb 1
      { buyerEmail := some "new@x.co", buyerName := some " Bob "
        buyerContactNumber := some "3111111111" } 7).2.2 patchedPayDb _ heq
  exact ⟨_, heq, h⟩

/-! ## Claim C4: the color-membership validation -/

/-- Whether a pipeline result is a rejection by `ValidationError`
(as opposed to success or a different thrown error). -/
def isValidationError {α : Type} : Except PurchaseError α → Bool
  | .error (.validation _) => true
  | _ => false

/-- A product whose serialized `colors` string is not well-formed JSON. -/
def badColorsProduct : Product :=
  { id := 5, name := "Lamp", price := 10, status := "available", colors := some "oops" }

/-- A product with color list `["red"]`. -/
def redProduct : Product :=
  { id := 6, name := "Mug", price := 4, status := "available", colors := some "[\"red\"]" }

/-- Counterexample to C4 as stated, at two concrete inputs.
First: product 5 is available but its colors string `"oops"` is malformed;
an item selecting `"red"` is rejected with the `JSON.parse` `SyntaxError`,
not with a `ValidationError` — the malformed colors **string** is not
treated as an empty list.  Second: an item whose `selectedColor` is the
empty string is accepted even though `""` is not a member of product 6's
color list `["red"]` — `if (item.selectedColor)` treats it as absent — so
the claimed "rejected exactly when not a member" biconditional fails. -/
theorem validateItem_color_counterexample :
    validateItem [badColorsProduct] { productId := 5, quantity := 1, selectedColor := some "red" }
      = Except.error PurchaseError.jsonSyntaxError
    ∧ isValidationError
        (validateItem [badColorsProduct] { productId := 5, quantity := 1, selectedColor := some "red" })
      = false
    ∧ (validateItem [redProduct] { productId := 6, quantity := 1, selectedColor := some "" }).isOk
      = true
    ∧ (["red"] : List String).contains "" = false := by
  refine ⟨by decide, by decide, by decide, by decide⟩

/-- C4 (amended): for an item whose product exists, is available, and has
a positive quantity — with a truthy (nonempty) `selectedColor c`:
a non-string `colors` value is replaced by `'[]'` and so parses to the
empty list, rejecting `c` with a `ValidationError`; when the colors string
parses to a list `L`, the item passes iff `c ∈ L` and is rejected with a
`ValidationError` when `c ∉ L`; when the colors string is malformed the
`JSON.parse` error (not a `ValidationError`) propagates.  With an absent
or empty-string `selectedColor` the color check is skipped entirely. -/
theorem validateItem_color_semantics (products : List Product) (item : CartItem) :
    (∀ product c, productById products item.productId = some product →
      product.status = "available" → 0 < item.quantity →
      optTruthy item.selectedColor = some c →
        (product.colors = none →
            parseColorsArray ((product.colors).getD "[]") = some []
            ∧ isValidationError (validateItem products item) = true)
        ∧ (∀ L, parseColorsArray ((product.colors).getD "[]") = some L →
            ((validateItem products item).isOk = true ↔ L.contains c = true)
            ∧ (L.contains c = false →
                isValidationError (validateItem products item) = true))
        ∧ (parseColorsArray ((product.colors).getD "[]") = none →
            validateItem products item = Except.error PurchaseError.jsonSyntaxError))
    ∧ (∀ product, productById products item.productId = some product →
        product.status = "available" → 0 < item.quantity →
        optTruthy item.selectedColor = none →
        (validateItem products item).isOk = true) := by
  have hred : ∀ product, productById products item.productId = some product →
      product.status = "available" → 0 < item.quantity →
      validateItem products item
        = (colorCheck product item.selectedColor).map fun _ =>
            { productId := item.productId
              quantity := item.quantity
              selectedColor := item.selectedColor
              product := product
              unitPrice := product.price
              totalPrice := product.price * (item.quantity : ℚ) } := by
    intro product hp hav hq
    unfold validateItem
    rw [if_neg (by omega)]
    simp only [hp]
    rw [if_neg (by simp [hav])]
  constructor
  · intro product c hp hav hq hc
    refine ⟨?_, ?_, ?_⟩
    · intro hnone
      have hparse : parseColorsArray ((product.colors).getD "[]") = some [] := by
        rw [hnone]; decide
      refine ⟨hparse, ?_⟩
      rw [hred product hp hav hq]
      unfold colorCheck
      simp only [hc]
      simp only [hparse]
      simp [isValidationError, Except.map]
    · intro L hparse
      rw [hred product hp hav hq]
      unfold colorCheck
      simp only [hc]
      simp only [hparse]
      by_cases hmem : L.contains c = true
      · rw [if_pos hmem]
        have hmem' : c ∈ L := by simpa using hmem
        simp [Except.map, Except.isOk, Except.toBool, hmem]
        exact ⟨hmem', fun h => absurd hmem' h⟩
      · rw [if_neg hmem]
        simp only [Bool.not_eq_true] at hmem
        simp [Except.map, Except.isOk, Except.toBool, isValidationError, hmem]
        simpa using hmem
    · intro hparse
      rw [hred product hp hav hq]
      unfold colorCheck
      simp only [hc]
      simp only [hparse]
      simp [Except.map]
  · intro product hp hav hq hc
    rw [hred product hp hav hq]
    unfold colorCheck
    simp only [hc]
    simp [Except.map, Except.isOk, Except.toBool]

/-- Witness for C4 (amended), applied on product 6 (`colors = ["red"]`):
selecting `"red"` passes and selecting `"blue"` is rejected with a
`ValidationError`. -/
theorem validateItem_color_semantics_witness :
    ((validateItem [redProduct] { productId := 6, quantity := 1, selectedColor := some "red" }).isOk
        = true ↔ (["red"] : List String).contains "red" = true)
    ∧ isValidationError
        (validateItem [redProduct] { productId := 6, quantity := 1, selectedColor := some "blue" })
      = true :=
  ⟨((validateItem_color_semantics [redProduct]
        { productId := 6, quantity := 1, selectedColor := some "red" }).1 redProduct "red"
      (by decide) (by decide) (by decide) (by decide)).2.1 ["red"] (by decide) |>.1,
   ((validateItem_color_semantics [redProduct]
        { productId := 6, quantity := 1, selectedColor := some "blue" }).1 redProduct "blue"
      (by decide) (by decide) (by decide) (by decide)).2.1 ["red"] (by decide) |>.2 (by decide)⟩

/-! ## Lemmas about the `createPurchase` validation pipeline -/

/-- Every error thrown by `validatePurchaseRequest` is a
`ValidationError`. -/
lemma validatePurchaseRequest_error_validation {req : CreatePurchaseRequest} {e : PurchaseError}
    (h : validatePurchaseRequest req = .error e) : ∃ msg, e = .validation msg := by
  unfold validatePurchaseRequest at h
  split_ifs at h <;> first
    | (cases h; exact ⟨_, rfl⟩)
    | cases h

/-- A request accepted by `validatePurchaseRequest` has a nonempty cart
and a regex-matching buyer email. -/
lemma validatePurchaseRequest_ok_facts {req : CreatePurchaseRequest} {u : Unit}
    (h : validatePurchaseRequest req = .ok u) :
    req.items.isEmpty = false ∧ emailRegexTest req.buyerEmail = true := by
  unfold validatePurchaseRequest at h
  split_ifs at h with h1 h2 h3 h4 h5 <;>
    first
      | exact ⟨by simpa using h1, by simpa using h2⟩
      | cases h

/-- What holds of a cart item accepted by `validateItem`. -/
lemma validateItem_ok_spec {products : List Product} {item : CartItem} {v : ValidatedCartItem}
    (h : validateItem products item = .ok v) :
    productById products item.productId = some v.product
    ∧ v.unitPrice = v.product.price
    ∧ v.totalPrice = v.unitPrice * (v.quantity : ℚ)
    ∧ v.productId = item.productId
    ∧ v.quantity = item.quantity
    ∧ v.selectedColor = item.selectedColor := by
  unfold validateItem at h
  by_cases hq : item.quantity ≤ 0
  · rw [if_pos hq] at h; cases h
  · rw [if_neg hq] at h
    cases hp : productById products item.productId with
    | none => rw [hp] at h; cases h
    | some product =>
      simp only [hp] at h
      by_cases hs : product.status ≠ "available"
      · rw [if_pos hs] at h; cases h
      · rw [if_neg hs] at h
        cases hcc : colorCheck product item.selectedColor with
        | error e => rw [hcc] at h; cases h
        | ok u =>
          rw [hcc] at h
          simp only [Except.map] at h
          cases h
          exact ⟨rfl, rfl, rfl, rfl, rfl, rfl⟩

/-- When the item's product (if any) has a parseable colors value, every
error thrown by `validateItem` is a `ValidationError`. -/
lemma validateItem_error_validation {products : List Product} {item : CartItem} {e : PurchaseError}
    (hwf : ∀ product, productById products item.productId = some product →
        (parseColorsArray (product.colors.getD "[]")).isSome = true)
    (h : validateItem products item = .error e) : ∃ msg, e = .validation msg := by
  unfold validateItem at h
  by_cases hq : item.quantity ≤ 0
  · rw [if_pos hq] at h; cases h; exact ⟨_, rfl⟩
  · rw [if_neg hq] at h
    cases hp : productById products item.productId with
    | none => rw [hp] at h; cases h; exact ⟨_, rfl⟩
    | some product =>
      simp only [hp] at h
      by_cases hs : product.status ≠ "available"
      · rw [if_pos hs] at h; cases h; exact ⟨_, rfl⟩
      · rw [if_neg hs] at h
        cases hcc : colorCheck product item.selectedColor with
        | ok u => rw [hcc] at h; cases h
        | error e' =>
          rw [hcc] at h
          cases h
          unfold colorCheck at hcc
          cases hc : optTruthy item.selectedColor with
          | none => rw [hc] at hcc; cases hcc
          | some c =>
            simp only [hc] at hcc
            cases hparse : parseColorsArray (product.colors.getD "[]") with
            | none =>
              have := hwf product hp
              rw [hparse] at this
              cases this
            | some L =>
              simp only [hparse] at hcc
              by_cases hmem : L.contains c = true
              · rw [if_pos hmem] at hcc; cases hcc
              · rw [if_neg hmem] at hcc; cases hcc; exact ⟨_, rfl⟩

/-- Colors well-formedness of the products referenced by a cart. -/
def cartColorsWF (products : List Product) (items : List CartItem) : Prop :=
  ∀ item ∈ items, ∀ product, productById products item.productId = some product →
    (parseColorsArray (product.colors.getD "[]")).isSome = true

/-- Under colors well-formedness, every error of
`validateAndCalculateItems` is a `ValidationError`. -/
lemma validateAndCalculateItems_error_validation {products : List Product} :
    ∀ {items : List CartItem} {e : PurchaseError}, cartColorsWF products items →
      validateAndCalculateItems products items = .error e → ∃ msg, e = .validation msg := by
  intro items
  induction items with
  | nil => intro e _ h; cases h
  | cons item rest ih =>
    intro e hwf h
    unfold validateAndCalculateItems at h
    cases hv : validateItem products item with
    | error e' =>
      rw [hv] at h
      cases h
      exact validateItem_error_validation (hwf item (List.mem_cons_self item rest)) hv
    | ok v =>
      rw [hv] at h
      cases hr : validateAndCalculateItems products rest with
      | error e' =>
        rw [hr] at h
        cases h
        exact ih (fun it hit => hwf it (List.mem_cons_of_mem item hit)) hr
      | ok vs => rw [hr] at h; cases h

/-- Every validated item of a successful `validateAndCalculateItems` run
comes from a cart item accepted by `validateItem`. -/
lemma validateAndCalculateItems_ok_mem {products : List Product} :
    ∀ {items : List CartItem} {vs : List ValidatedCartItem},
      validateAndCalculateItems products items = .ok vs →
      ∀ v ∈ vs, ∃ item ∈ items, validateItem products item = .ok v := by
  intro items
  induction items with
  | nil =>
    intro vs h v hv
    cases h
    cases hv
  | cons item rest ih =>
    intro vs h v hv
    unfold validateAndCalculateItems at h
    cases hi : validateItem products item with
    | error e => rw [hi] at h; cases h
    | ok w =>
      rw [hi] at h
      cases hr : validateAndCalculateItems products rest with
      | error e => rw [hr] at h; cases h
      | ok ws =>
        rw [hr] at h
        cases h
        rcases List.mem_cons.mp hv with hveq | hvmem
        · exact ⟨item, List.mem_cons_self item rest, hveq ▸ hi⟩
        · rcases ih hr v hvmem with ⟨it, hit, hok⟩
          exact ⟨it, List.mem_cons_of_mem item hit, hok⟩

/-- A cart item the claims call invalid: missing product, unavailable
product, or a truthy selected color outside the parsed color list. -/
def badCartItem (products : List Product) (item : CartItem) : Prop :=
  productById products item.productId = none
  ∨ (∃ product, productById products item.productId = some product ∧ product.status ≠ "available")
  ∨ (∃ product c L, productById products item.productId = some product
      ∧ optTruthy item.selectedColor = some c
      ∧ parseColorsArray (product.colors.getD "[]") = some L
      ∧ c ∉ L)

/-- An invalid cart item never passes `validateItem`. -/
lemma validateItem_not_ok_of_bad {products : List Product} {item : CartItem}
    (hbad : badCartItem products item) : ∀ v, validateItem products item ≠ .ok v := by
  intro v h
  rcases hbad with hmiss | ⟨product, hp, hs⟩ | ⟨product, c, L, hp, hc, hparse, hmem⟩
  · rcases validateItem_ok_spec h with ⟨hp, -⟩
    rw [hmiss] at hp
    cases hp
  · rcases validateItem_ok_spec h with ⟨hp', -⟩
    rw [hp] at hp'
    cases hp'
    -- the accepted item's product is the unavailable one
    unfold validateItem at h
    by_cases hq : item.quantity ≤ 0
    · rw [if_pos hq] at h; cases h
    · rw [if_neg hq] at h
      simp only [hp] at h
      rw [if_pos hs] at h
      cases h
  · unfold validateItem at h
    by_cases hq : item.quantity ≤ 0
    · rw [if_pos hq] at h; cases h
    · rw [if_neg hq] at h
      simp only [hp] at h
      by_cases hs : product.status ≠ "available"
      · rw [if_pos hs] at h; cases h
      · rw [if_neg hs] at h
        cases hcc : colorCheck product item.selectedColor with
        | error e => rw [hcc] at h; cases h
        | ok u =>
          unfold colorCheck at hcc
          simp only [hc, hparse] at hcc
          by_cases hmem' : L.contains c = true
          · exact hmem (by simpa using hmem')
          · rw [if_neg hmem'] at hcc; cases hcc

/-- A cart containing an invalid item never passes
`validateAndCalculateItems`. -/
lemma validateAndCalculateItems_not_ok_of_bad {products : List Product} :
    ∀ {items : List CartItem}, (∃ item ∈ items, badCartItem products item) →
      ∀ vs, validateAndCalculateItems products items ≠ .ok vs := by
  intro items
  induction items with
  | nil =>
    rintro ⟨item, hmem, -⟩
    cases hmem
  | cons item rest ih =>
    rintro ⟨it, hmem, hbad⟩ vs h
    unfold validateAndCalculateItems at h
    cases hi : validateItem products item with
    | error e => rw [hi] at h; cases h
    | ok w =>
      rw [hi] at h
      cases hr : validateAndCalculateItems products rest with
      | error e => rw [hr] at h; cases h
      | ok ws =>
        rcases List.mem_cons.mp hmem with heq | hmem'
        · exact validateItem_not_ok_of_bad (heq ▸ hbad) w hi
        · exact ih ⟨it, hmem', hbad⟩ ws hr

/-- Left fold of rational addition over a projection is the sum of the
projected list. -/
lemma foldl_add_eq_sum {α : Type} (f : α → ℚ) :
    ∀ (l : List α) (a : ℚ), l.foldl (fun s x => s + f x) a = a + (l.map f).sum := by
  intro l
  induction l with
  | nil => intro a; simp
  | cons x xs ih =>
    intro a
    simp only [List.foldl_cons, List.map_cons, List.sum_cons]
    rw [ih]
    ring

/-! ## Claim C2: validation failures abort `createPurchase` before any write -/

/-- The one-product catalog entry (price `50.00`, colors
`["red","blue"]`) used by the C2 and C1 example databases. -/
def catalogProduct : Product :=
  { id := 1, name := "Widget", price := 50, status := "available"
    colors := some "[\"red\",\"blue\"]" }

/-- A catalog-only database used by the `createPurchase` witnesses. -/
def catalogDb : DB :=
  { purchases := [], orderDetails := [], products := [catalogProduct]
    nextPurchaseId := 1, nextOrderDetailId := 1 }

/-- A well-formed buyer section for the `createPurchase` witnesses. -/
def okBuyer : CreatePurchaseRequest :=
  { buyerEmail := "buyer@example.com", buyerName := "Ana"
    buyerIdentificationNumber := "123456", buyerContactNumber := "3001234567"
    shippingAddress := none, items := [] }

/-- The cart selecting the empty-string color on product 1 (whose color
list is `["red","blue"]`), with well-formed buyer fields. -/
def emptyColorReq : CreatePurchaseRequest :=
  { okBuyer with items := [{ productId := 1, quantity := 1, selectedColor := some "" }] }

/-- A catalog holding only the malformed-colors product 5. -/
def badColorsDb : DB :=
  { purchases := [], orderDetails := [], products := [badColorsProduct]
    nextPurchaseId := 1, nextOrderDetailId := 1 }

/-- The cart selecting `"red"` on the malformed-colors product 5, with
well-formed buyer fields. -/
def malformedColorsReq : CreatePurchaseRequest :=
  { okBuyer with items := [{ productId := 5, quantity := 1, selectedColor := some "red" }] }

/-- Counterexample to C2 as stated, at two concrete inputs.
First: `emptyColorReq` selects color `""`, which is not a member of
product 1's color list — yet `createPurchase` succeeds, creating a
`Purchase` row and making a gateway call, because the JS-falsy
`selectedColor` skips the membership check.  Second:
`malformedColorsReq` selects a color on a product whose colors string is
malformed — the operation does abort before any write, but with the
`JSON.parse` `SyntaxError`, not a `ValidationError`. -/
theorem createPurchase_invalid_no_writes_counterexample :
    ((createPurchase catalogDb emptyColorReq 1000 [1, 2]
          { transactionId := "t", paymentUrl := "u" }).result.isOk = true
      ∧ (createPurchase catalogDb emptyColorReq 1000 [1, 2]
          { transactionId := "t", paymentUrl := "u" }).db.purchases.length = 1
      ∧ (createPurchase catalogDb emptyColorReq 1000 [1, 2]
          { transactionId := "t", paymentUrl := "u" }).gatewayCalls.length = 1
      ∧ (["red", "blue"] : List String).contains "" = false)
    ∧ (createPurchase badColorsDb malformedColorsReq 1000 [1, 2]
          { transactionId := "t", paymentUrl := "u" }
        = ⟨badColorsDb, [], Except.error PurchaseError.jsonSyntaxError⟩
      ∧ isValidationError (createPurchase badColorsDb malformedColorsReq 1000 [1, 2]
          { transactionId := "t", paymentUrl := "u" }).result = false) := by
  with_unfolding_all decide

/-- C2 (amended): a `createPurchase` request with an empty cart, a
malformed buyer email, a non-existent product, an unavailable product, or
a truthy (nonempty) selected color outside the product's parsed color
list fails with a `ValidationError`, leaving the database untouched and
making no gateway call.  The colors strings of the referenced products
are assumed parseable (`cartColorsWF`): an empty-string `selectedColor`
is treated as absent, and a malformed colors string is the separate
non-`ValidationError` abort shown in the counterexample and treated
under C4. -/
theorem createPurchase_invalid_no_writes (db : DB) (req : CreatePurchaseRequest) (now : Nat)
    (randFrac : List (Fin 36)) (gw : GatewayResponse)
    (hwf : cartColorsWF db.products req.items)
    (hbad : req.items = []
      ∨ emailRegexTest req.buyerEmail = false
      ∨ ∃ item ∈ req.items, badCartItem db.products item) :
    ∃ msg, createPurchase db req now randFrac gw
        = ⟨db, [], Except.error (PurchaseError.validation msg)⟩ := by
  cases hv : validatePurchaseRequest req with
  | error e =>
    rcases validatePurchaseRequest_error_validation hv with ⟨msg, rfl⟩
    refine ⟨msg, ?_⟩
    unfold createPurchase
    rw [hv]
  | ok u =>
    have hfacts := validatePurchaseRequest_ok_facts hv
    have hbad' : ∃ item ∈ req.items, badCartItem db.products item := by
      rcases hbad with hempty | hemail | h3
      · rw [hempty] at hfacts
        cases hfacts.1
      · rw [hemail] at hfacts
        cases hfacts.2
      · exact h3
    cases hva : validateAndCalculateItems db.products req.items with
    | ok vs => exact absurd hva (validateAndCalculateItems_not_ok_of_bad hbad' vs)
    | error e =>
      rcases validateAndCalculateItems_error_validation hwf hva with ⟨msg, rfl⟩
      refine ⟨msg, ?_⟩
      unfold createPurchase
      rw [hv, hva]

/-- Witness for C2 (amended) on three concrete bad requests against the
one-product catalog: an empty cart, a missing product id, and a nonempty
color outside the product's list each produce a `ValidationError` with no
state change and no gateway call. -/
theorem createPurchase_invalid_no_writes_witness :
    (∃ msg, createPurchase catalogDb okBuyer 1000 [1, 2] { transactionId := "t", paymentUrl := "u" }
        = ⟨catalogDb, [], Except.error (PurchaseError.validation msg)⟩)
    ∧ (∃ msg, createPurchase catalogDb
          { okBuyer with items := [{ productId := 9, quantity := 1, selectedColor := none }] }
          1000 [1, 2] { transactionId := "t", paymentUrl := "u" }
        = ⟨catalogDb, [], Except.error (PurchaseError.validation msg)⟩)
    ∧ (∃ msg, createPurchase catalogDb
          { okBuyer with items := [{ productId := 1, quantity := 1, selectedColor := some "green" }] }
          1000 [1, 2] { transactionId := "t", paymentUrl := "u" }
        = ⟨catalogDb, [], Except.error (PurchaseError.validation msg)⟩) :=
  ⟨createPurchase_invalid_no_writes catalogDb okBuyer 1000 [1, 2]
      { transactionId := "t", paymentUrl := "u" }
      (by intro item hit; cases hit) (Or.inl rfl),
   createPurchase_invalid_no_writes catalogDb
      { okBuyer with items := [{ productId := 9, quantity := 1, selectedColor := none }] }
      1000 [1, 2] { transactionId := "t", paymentUrl := "u" }
      (by
        intro item hit product hp
        have hi := List.mem_singleton.mp hit
        subst hi
        cases hp)
      (Or.inr (Or.inr ⟨{ productId := 9, quantity := 1, selectedColor := none },
        by decide, Or.inl (by decide)⟩)),
   createPurchase_invalid_no_writes catalogDb
      { okBuyer with items := [{ productId := 1, quantity := 1, selectedColor := some "green" }] }
      1000 [1, 2] { transactionId := "t", paymentUrl := "u" }
      (by
        intro item hit product hp
        have hi := List.mem_singleton.mp hit
        subst hi
        cases hp
        decide)
      (Or.inr (Or.inr ⟨{ productId := 1, quantity := 1, selectedColor := some "green" },
        by decide,
        Or.inr (Or.inr ⟨catalogProduct, "green", ["red", "blue"],
          by decide, by decide, by decide, by decide⟩)⟩))⟩

/-! ## Claim C1: totals of a successful `createPurchase` -/

/-- `find?` by the fresh id over the updated, appended purchase table
returns the updated new row. -/
lemma find?_map_append_fresh (l : List PurchaseRow) (purchase : PurchaseRow) (i : ℤ)
    (f : PurchaseRow → PurchaseRow) (hid : ∀ r, (f r).id = r.id)
    (hpi : purchase.id = i) (hfresh : ∀ r ∈ l, r.id ≠ i) :
    ((l ++ [purchase]).map f).find? (fun r => r.id == i) = some (f purchase) := by
  induction l with
  | nil =>
    have hpred : ((f purchase).id == i) = true := by simp [hid, hpi]
    simp [List.find?, hpred]
  | cons r rest ih =>
    have hpred : ((f r).id == i) = false := by
      simp [hid]
      exact hfresh r (List.mem_cons_self r rest)
    simp only [List.cons_append, List.map_cons]
    rw [List.find?_cons_of_neg _ (by simp [hpred])]
    exact ih fun x hx => hfresh x (List.mem_cons_of_mem r hx)

/-- C1: when `createPurchase` succeeds, the returned `totalAmount` is the
sum of `unitPrice × quantity` over the returned items, each `unitPrice`
is the current catalog price of the item's product, and the persisted
`Purchase` row carries `amount = Math.round(totalAmount * 100)`.
`hfresh` is the `SERIAL` invariant: no existing row uses the next id. -/
theorem createPurchase_total_and_amount (db : DB) (req : CreatePurchaseRequest) (now : Nat)
    (randFrac : List (Fin 36)) (gw : GatewayResponse) (resp : CreatePurchaseResponse)
    (hfresh : ∀ p ∈ db.purchases, p.id ≠ db.nextPurchaseId)
    (hok : (createPurchase db req now randFrac gw).result = Except.ok resp) :
    resp.totalAmount = (resp.items.map fun it => it.unitPrice * (it.quantity : ℚ)).sum
    ∧ (∀ it ∈ resp.items, ∃ product, productById db.products it.productId = some product
        ∧ it.unitPrice = product.price)
    ∧ (∃ row, purchaseById (createPurchase db req now randFrac gw).db resp.purchaseId = some row
        ∧ row.amount = (jsRound (resp.totalAmount * 100) : ℚ)) := by
  cases hv : validatePurchaseRequest req with
  | error e =>
    unfold createPurchase at hok
    rw [hv] at hok
    cases hok
  | ok u =>
    cases hva : validateAndCalculateItems db.products req.items with
    | error e =>
      unfold createPurchase at hok
      simp only [hv, hva] at hok
      cases hok
    | ok vs =>
      have hmem := validateAndCalculateItems_ok_mem hva
      unfold createPurchase at hok ⊢
      simp only [hv, hva] at hok ⊢
      cases hok
      refine ⟨?_, ?_, ?_⟩
      · show vs.foldl (fun sum item => sum + item.totalPrice) 0
          = ((vs.map fun item =>
              ({ productId := item.productId, productName := item.product.name
                 quantity := item.quantity, unitPrice := item.unitPrice
                 totalPrice := item.totalPrice
                 selectedColor := item.selectedColor } : ResponseItem)).map
              fun it => it.unitPrice * (it.quantity : ℚ)).sum
        rw [List.map_map, foldl_add_eq_sum, zero_add]
        congr 1
        apply List.map_congr_left
        intro v hv'
        rcases hmem v hv' with ⟨item, -, hvi⟩
        rcases validateItem_ok_spec hvi with ⟨-, -, htot, -⟩
        simpa [Function.comp] using htot
      · intro it hit
        rcases List.mem_map.mp hit with ⟨v, hv', rfl⟩
        rcases hmem v hv' with ⟨item, -, hvi⟩
        rcases validateItem_ok_spec hvi with ⟨hp, hprice, -, hpid, -⟩
        refine ⟨v.product, ?_, hprice⟩
        show productById db.products v.productId = some v.product
        rw [hpid]
        exact hp
      · unfold purchaseById
        dsimp only
        refine ⟨_, find?_map_append_fresh db.purchases _ db.nextPurchaseId _ ?_ rfl hfresh, ?_⟩
        · intro r
          by_cases hr : (r.id == db.nextPurchaseId) = true
          · rw [if_pos hr]
          · rw [if_neg hr]
        · simp

/-- The spec's worked example as a request: product 1 priced `50.00`,
quantity 2, color `"red"`. -/
def exampleReq : CreatePurchaseRequest :=
  { okBuyer with items := [{ productId := 1, quantity := 2, selectedColor := some "red" }] }

/-- The response `createPurchase` produces for `exampleReq` on
`catalogDb`: total `100.00`, one line item `50 × 2`. -/
def exampleResp : CreatePurchaseResponse :=
  { purchaseId := 1, wompiTransactionId := "t", paymentUrl := "u", totalAmount := 100
    items := [{ productId := 1, productName := "Widget", quantity := 2
                unitPrice := 50, totalPrice := 100, selectedColor := some "red" }] }

/-- Witness for C1 on the spec's worked example: total `100`, unit price
the catalog's `50`, persisted amount `round(100 × 100) = 10000`. -/
theorem createPurchase_total_and_amount_witness :
    exampleResp.totalAmount
        = (exampleResp.items.map fun it => it.unitPrice * (it.quantity : ℚ)).sum
    ∧ (∀ it ∈ exampleResp.items, ∃ product,
        productById catalogDb.products it.productId = some product
        ∧ it.unitPrice = product.price)
    ∧ (∃ row, purchaseById
          (createPurchase catalogDb exampleReq 1000 [1, 2]
            { transactionId := "t", paymentUrl := "u" }).db exampleResp.purchaseId = some row
        ∧ row.amount = (jsRound (exampleResp.totalAmount * 100) : ℚ)) :=
  createPurchase_total_and_amount catalogDb exampleReq 1000 [1, 2]
    { transactionId := "t", paymentUrl := "u" } exampleResp
    (by intro p hp; cases hp) (by with_unfolding_all decide)

/-! ## Claim C7: `getPurchasesByEmail` ordering and the missing-product fallback -/

/-- C7: `getPurchasesByEmail` returns exactly the buyer's purchases (a
permutation of the filtered table, formatted), ordered most-recently-
updated first, and every line item whose product no longer exists carries
the name `"Unknown Product"`. -/
theorem getPurchasesByEmail_contract (db : DB) (email : String) :
    (∃ l : List PurchaseRow, l.Perm (db.purchases.filter fun p => p.buyerEmail == email)
        ∧ getPurchasesByEmail db email = l.map (formatPurchase db "Unknown Product"))
    ∧ (getPurchasesByEmail db email).Pairwise (fun a b => b.updatedAt ≤ a.updatedAt)
    ∧ ∀ fp ∈ getPurchasesByEmail db email, ∀ it ∈ fp.items,
        productById db.products it.productId = none → it.productName = "Unknown Product" := by
  refine ⟨⟨_, List.mergeSort_perm _ _, rfl⟩, ?_, ?_⟩
  · unfold getPurchasesByEmail
    rw [List.pairwise_map]
    have hsorted := @List.sorted_mergeSort PurchaseRow
      (fun a b : PurchaseRow => decide (b.updatedAt ≤ a.updatedAt))
      (by intro a b c hab hbc; simp only [decide_eq_true_eq] at *; omega)
      (by intro a b; simp [Nat.le_total b.updatedAt a.updatedAt])
      (db.purchases.filter fun p => p.buyerEmail == email)
    exact hsorted.imp fun h => by simpa using h
  · intro fp hfp it hit hnone
    rcases List.mem_map.mp hfp with ⟨p, -, rfl⟩
    rcases List.mem_map.mp hit with ⟨d, -, rfl⟩
    show resolveProductName db.products d.productId "Unknown Product" = "Unknown Product"
    unfold resolveProductName
    have : productById db.products d.productId = none := hnone
    rw [this]

/-- A database for the C7 witness: two purchases of the same buyer with
different `updatedAt`, one line item pointing at a product id absent from
the catalog. -/
def historyDb : DB :=
  { purchases :=
      [ { payRow with id := 1, buyerEmail := "b@c.co", updatedAt := 5 },
        { payRow with id := 2, buyerEmail := "b@c.co", updatedAt := 9 } ]
    orderDetails :=
      [ { id := 1, purchaseId := 1, productId := 42, quantity := 1
          unitPrice := 3, totalPrice := 3, selectedColor := none } ]
    products := []
    nextPurchaseId := 3, nextOrderDetailId := 2 }

/-- A single-purchase database (purchase 1 of `historyDb` alone) used
for the missing-product half of the C7 witness. -/
def soloDb : DB :=
  { purchases := [ { payRow with id := 1, buyerEmail := "b@c.co", updatedAt := 5 } ]
    orderDetails :=
      [ { id := 1, purchaseId := 1, productId := 42, quantity := 1
          unitPrice := 3, totalPrice := 3, selectedColor := none } ]
    products := []
    nextPurchaseId := 2, nextOrderDetailId := 2 }

/-- The formatted purchase 1 of `soloDb`/`historyDb`: its line item
references the missing product 42. -/
def unknownItemPurchase : FormattedPurchase :=
  { id := 1, buyerEmail := "b@c.co", buyerName := "Bo"
    buyerContactNumber := some "3000000000"
    status := "PENDING", orderStatus := "PENDING"
    amount := 10000, currency := "COP", mercadopagoPaymentId := none
    wallpaperNumbers := [42]
    items := [{ productId := 42, productName := "Unknown Product", quantity := 1
                unitPrice := 3, totalPrice := 3, selectedColor := none }]
    createdAt := 10, updatedAt := 5 }

/-- Witness for C7: on `historyDb` the result is ordered `9, 5` by
`updatedAt`; on `soloDb` purchase 1's line item — whose product 42 is
gone — carries the name `"Unknown Product"`. -/
theorem getPurchasesByEmail_contract_witness :
    (getPurchasesByEmail historyDb "b@c.co").Pairwise (fun a b => b.updatedAt ≤ a.updatedAt)
    ∧ ({ productId := 42, productName := "Unknown Product", quantity := 1
         unitPrice := 3, totalPrice := 3, selectedColor := none } : FormattedItem).productName
        = "Unknown Product" :=
  ⟨(getPurchasesByEmail_contract historyDb "b@c.co").2.1,
   (getPurchasesByEmail_contract soloDb "b@c.co").2.2 unknownItemPurchase
      (by
        have hlist : getPurchasesByEmail soloDb "b@c.co" = [unknownItemPurchase] := by
          simp [getPurchasesByEmail, soloDb, payRow, formatPurchase, detailsOf,
            resolveProductName, productById, unknownItemPurchase, List.mergeSort, List.filter]
        rw [hlist]
        exact List.mem_singleton.mpr rfl)
      { productId := 42, productName := "Unknown Product", quantity := 1
        unitPrice := 3, totalPrice := 3, selectedColor := none }
      (by decide) (by decide)⟩

/-! ## Claim C6: `generateBackupData` revenue and distinct products sold -/

/-- The statuses that contribute revenue: upper-cased `APPROVED` or
`COMPLETED`. -/
def okStatus (p : PurchaseRow) : Bool :=
  (jsToUpperCase p.status == "APPROVED") || (jsToUpperCase p.status == "COMPLETED")

lemma foldl_insert_proj {α : Type} (f : α → ℤ) :
    ∀ (xs : List α) (s : Finset ℤ),
      xs.foldl (fun acc x => insert (f x) acc) s = s ∪ (xs.map f).toFinset := by
  intro xs
  induction xs with
  | nil => intro s; simp
  | cons x rest ih =>
    intro s
    simp only [List.foldl_cons, List.map_cons, List.toFinset_cons]
    rw [ih, Finset.insert_union, Finset.union_insert]

lemma backupStep_other (db : DB) (st : PurchaseStatistics) (sold : Finset ℤ) (p : PurchaseRow)
    (h1 : jsToUpperCase p.status ≠ "APPROVED") (h2 : jsToUpperCase p.status ≠ "COMPLETED") :
    (backupStep db (st, sold) p).1.totalRevenue = st.totalRevenue
    ∧ (backupStep db (st, sold) p).2 = sold := by
  unfold backupStep
  rw [if_neg h1, if_neg h2]
  split_ifs <;> exact ⟨rfl, rfl⟩

/-- The statistics fold accumulates exactly the revenue and the sold
product ids of the `APPROVED`/`COMPLETED` purchases. -/
lemma backupFold_spec (db : DB) :
    ∀ (l : List PurchaseRow) (st : PurchaseStatistics) (sold : Finset ℤ),
      (l.foldl (backupStep db) (st, sold)).1.totalRevenue
          = st.totalRevenue + ((l.filter okStatus).map (·.amount)).sum
      ∧ (l.foldl (backupStep db) (st, sold)).2
          = sold ∪ ((l.filter okStatus).flatMap fun p =>
              (detailsOf db p.id).map (·.productId)).toFinset := by
  intro l
  induction l with
  | nil => intro st sold; simp
  | cons p rest ih =>
    intro st sold
    by_cases h1 : jsToUpperCase p.status = "APPROVED"
    · have hok : okStatus p = true := by simp [okStatus, h1]
      have hstep : backupStep db (st, sold) p
          = ({ st with approvedCount := st.approvedCount + 1
                       totalRevenue := st.totalRevenue + p.amount },
             sold ∪ ((detailsOf db p.id).map (·.productId)).toFinset) := by
        unfold backupStep
        rw [if_pos h1, foldl_insert_proj]
      have hfil : (p :: rest).filter okStatus = p :: rest.filter okStatus := by
        simp [List.filter_cons, hok]
      simp only [List.foldl_cons, hstep, hfil, List.map_cons,
        List.sum_cons, List.flatMap_cons, List.toFinset_append]
      rcases ih ({ st with approvedCount := st.approvedCount + 1
                           totalRevenue := st.totalRevenue + p.amount })
          (sold ∪ ((detailsOf db p.id).map (·.productId)).toFinset) with ⟨hrev, hsold⟩
      constructor
      · rw [hrev]
        dsimp only
        ring
      · rw [hsold, Finset.union_assoc]
    · by_cases h2 : jsToUpperCase p.status = "COMPLETED"
      · have hok : okStatus p = true := by simp [okStatus, h2]
        have hstep : backupStep db (st, sold) p
            = ({ st with completedCount := st.completedCount + 1
                         totalRevenue := st.totalRevenue + p.amount },
               sold ∪ ((detailsOf db p.id).map (·.productId)).toFinset) := by
          unfold backupStep
          rw [if_neg h1, if_pos h2, foldl_insert_proj]
        have hfil : (p :: rest).filter okStatus = p :: rest.filter okStatus := by
          simp [List.filter_cons, hok]
        simp only [List.foldl_cons, hstep, hfil, List.map_cons,
          List.sum_cons, List.flatMap_cons, List.toFinset_append]
        rcases ih ({ st with completedCount := st.completedCount + 1
                             totalRevenue := st.totalRevenue + p.amount })
            (sold ∪ ((detailsOf db p.id).map (·.productId)).toFinset) with ⟨hrev, hsold⟩
        constructor
        · rw [hrev]
          dsimp only
          ring
        · rw [hsold, Finset.union_assoc]
      · have hok : okStatus p = false := by simp [okStatus, h1, h2]
        rcases backupStep_other db st sold p h1 h2 with ⟨hrev0, hsold0⟩
        have hfil : (p :: rest).filter okStatus = rest.filter okStatus := by
          simp [List.filter_cons, hok]
        simp only [List.foldl_cons, hfil]
        rcases ih (backupStep db (st, sold) p).1 (backupStep db (st, sold) p).2 with ⟨hrev, hsold⟩
        constructor
        · rw [hrev, hrev0]
        · rw [hsold, hsold0]

/-- C6: in `generateBackupData`, `totalRevenue` is the sum of `amount`
over exactly the purchases whose upper-cased status is `APPROVED` or
`COMPLETED`, and `uniqueProductsSold` is the number of distinct
`productId`s across the line items of those purchases only. -/
theorem generateBackupData_stats (db : DB) (now : Nat) :
    (generateBackupData db now).statistics.totalRevenue
        = ((db.purchases.filter okStatus).map (·.amount)).sum
    ∧ (generateBackupData db now).statistics.uniqueProductsSold
        = ((db.purchases.filter okStatus).flatMap fun p =>
            (detailsOf db p.id).map (·.productId)).toFinset.card := by
  have hperm : (db.purchases.mergeSort fun a b => b.createdAt ≤ a.createdAt).Perm db.purchases :=
    List.mergeSort_perm _ _
  have hfperm := hperm.filter okStatus
  have hsum : (((db.purchases.mergeSort fun a b => b.createdAt ≤ a.createdAt).filter
        okStatus).map (·.amount)).sum
      = ((db.purchases.filter okStatus).map (·.amount)).sum :=
    (hfperm.map (·.amount)).sum_eq
  have hfin : (((db.purchases.mergeSort fun a b => b.createdAt ≤ a.createdAt).filter
        okStatus).flatMap fun p => (detailsOf db p.id).map (·.productId)).toFinset
      = ((db.purchases.filter okStatus).flatMap fun p =>
          (detailsOf db p.id).map (·.productId)).toFinset :=
    List.toFinset_eq_of_perm _ _
      (List.Perm.flatMap_right (fun p => (detailsOf db p.id).map (·.productId)) hfperm)
  unfold generateBackupData
  rcases backupFold_spec db (db.purchases.mergeSort fun a b => b.createdAt ≤ a.createdAt)
      { totalPurchases := (db.purchases.mergeSort fun a b => b.createdAt ≤ a.createdAt).length
        approvedCount := 0, completedCount := 0, pendingCount := 0
        cancelledCount := 0, rejectedCount := 0, failedCount := 0
        totalRevenue := 0, uniqueProductsSold := 0 }
      (∅ : Finset ℤ) with ⟨hrev, hsold⟩
  constructor
  · show (_ : PurchaseStatistics × Finset ℤ).1.totalRevenue = _
    rw [hrev] at *
    simpa [hsum] using hsum
  · show (_ : PurchaseStatistics × Finset ℤ).2.card = _
    rw [hsold]
    simp [hfin]

end AppStore
